import Mathlib

/-!
Shallow embedding of the vehicle registration example (src/example-2/wip.py)
and verification of its specification.

Python strings are modelled as Lean `String`; Python `int` as `ℤ`; the
`taxes` float table as exact rationals (0.02 = 2/100, 0.05 = 5/100); the
`dict[Tuple[str, str], VehicleModelInfo]` as an association list with
Python-dict semantics (lookup by key, insert replaces in place, new keys
appended); `random.choices` as a stream of natural-number draws indexing
into the alphabet modulo its size; raising an exception as returning
`Except.error`; mutation of `self` as explicit state passing.
-/

namespace VehicleReg

/-- Types of fuel used in a vehicle (`FuelType` enum). -/
inductive FuelType
  | ELECTRIC
  | PETROL
deriving DecidableEq

/-- Possible statuses for the vehicle registry system (`RegistryStatus` enum). -/
inductive RegistryStatus
  | ONLINE
  | CONNECTION_ERROR
  | OFFLINE
deriving DecidableEq

/-- The module-level `taxes` table: ELECTRIC ↦ 0.02, PETROL ↦ 0.05,
with the float literals modelled as exact rationals. -/
def taxes : FuelType → ℚ
  | FuelType.ELECTRIC => 2 / 100
  | FuelType.PETROL => 5 / 100

/-- The `VehicleInfoMissingError` dataclass raised when vehicle information
is missing for a particular brand. -/
structure VehicleInfoMissingError where
  brand : String
  model : String
  message : String
deriving DecidableEq

/-- Constructing a `VehicleInfoMissingError` from brand and model only,
taking the dataclass default for `message`. -/
def VehicleInfoMissingError.mkDefault (brand model : String) : VehicleInfoMissingError :=
  ⟨brand, model, "Vehicle information is missing."⟩

/-- The `VehicleModelInfo` dataclass. -/
structure VehicleModelInfo where
  brand : String
  model : String
  catalogue_price : ℤ
  fuel_type : FuelType
  production_year : ℤ
deriving DecidableEq

/-- Constructing a `VehicleModelInfo` from brand, model and catalogue price
only, taking the dataclass defaults: `fuel_type = FuelType.ELECTRIC` and
`production_year = datetime.now().year`.  The latter is evaluated once when
the class body runs, so it is passed here as the parameter
`classDefinitionYear` (real time is outside the embedding). -/
def VehicleModelInfo.mkDefault (classDefinitionYear : ℤ) (brand model : String)
    (catalogue_price : ℤ) : VehicleModelInfo :=
  ⟨brand, model, catalogue_price, FuelType.ELECTRIC, classDefinitionYear⟩

/-- The `tax` property: `taxes[self.fuel_type] * self.catalogue_price`. -/
def VehicleModelInfo.tax (self : VehicleModelInfo) : ℚ :=
  taxes self.fuel_type * self.catalogue_price

/-- The `Vehicle` dataclass. -/
structure Vehicle where
  vehicle_id : String
  license_plate : String
  info : VehicleModelInfo
deriving DecidableEq

/-- Keys of the registry dictionary: `(brand, model)` pairs. -/
abbrev ModelKey := String × String

/-- Python-dict insertion on an association list: an existing binding of the
key is replaced in place, a fresh key is appended at the end. -/
def dictInsert (key : ModelKey) (val : VehicleModelInfo) :
    List (ModelKey × VehicleModelInfo) → List (ModelKey × VehicleModelInfo)
  | [] => [(key, val)]
  | (k, v) :: rest =>
      if k = key then (key, val) :: rest else (k, v) :: dictInsert key val rest

/-- Python `dict.get`: the value bound to the key, or `none`. -/
def dictGet (key : ModelKey) : List (ModelKey × VehicleModelInfo) → Option VehicleModelInfo
  | [] => none
  | (k, v) :: rest => if k = key then some v else dictGet key rest

/-- The state of a `VehicleRegistry` object: its two instance attributes. -/
structure VehicleRegistry where
  vehicle_models : List (ModelKey × VehicleModelInfo)
  online : Bool
deriving DecidableEq

/-- `VehicleRegistry.__init__`: empty model dictionary, online flag true. -/
def VehicleRegistry.init : VehicleRegistry :=
  ⟨[], true⟩

/-- `VehicleRegistry.add_vehicle_model_info`: stores `model_info` in the
dictionary under key `(model_info.brand, model_info.model)`. -/
def VehicleRegistry.add_vehicle_model_info (self : VehicleRegistry)
    (model_info : VehicleModelInfo) : VehicleRegistry :=
  { self with
      vehicle_models :=
        dictInsert (model_info.brand, model_info.model) model_info self.vehicle_models }

/-- `string.ascii_uppercase`. -/
def ascii_uppercase : List Char :=
  String.toList ("ABCDEFGHIJKLMNOPQRSTUVWXYZ")

/-- `string.digits`. -/
def string_digits : List Char :=
  String.toList ("0123456789")

/-- One draw of `random.choices(alphabet, ...)`: the random source yields a
natural number that selects an element of the alphabet. -/
def randChoice (alphabet : List Char) (draw : ℕ) : Char :=
  alphabet.getD (draw % alphabet.length) 'A'

/-- `random.choices(alphabet, k=k)`: `k` independent draws from `alphabet`. -/
def randChoices (alphabet : List Char) (draws : ℕ → ℕ) (k : ℕ) : List Char :=
  (List.range k).map fun i => randChoice alphabet (draws i)

/-- `VehicleRegistry.generate_vehicle_id`: a string of `length` characters
chosen from `string.ascii_uppercase`. -/
def generate_vehicle_id (draws : ℕ → ℕ) (length : ℕ) : String :=
  String.mk (randChoices ascii_uppercase draws length)

/-- `VehicleRegistry.generate_vehicle_license`: two random digits, two random
uppercase letters, formatted as `f"{_id[:2]}-{digit_part}-{letter_part}"`. -/
def generate_vehicle_license (digitDraws letterDraws : ℕ → ℕ) (_id : String) : String :=
  let digit_part := String.mk (randChoices string_digits digitDraws 2)
  let letter_part := String.mk (randChoices ascii_uppercase letterDraws 2)
  String.mk (_id.toList.take 2) ++ "-" ++ digit_part ++ "-" ++ letter_part

/-- `VehicleRegistry.find_model_info`: dictionary lookup, `None` on a miss. -/
def VehicleRegistry.find_model_info (self : VehicleRegistry) (brand model : String) :
    Option VehicleModelInfo :=
  dictGet (brand, model) self.vehicle_models

/-- `VehicleRegistry.register_vehicle`: raises `VehicleInfoMissingError` when
`find_model_info` returns `None` (a `VehicleModelInfo` dataclass instance is
always truthy, so the walrus test `not vehicle_model` is exactly the `None`
test); otherwise builds a `Vehicle` from a fresh 12-character id and plate.
The returned first component is the registry state after the call. -/
def VehicleRegistry.register_vehicle (self : VehicleRegistry) (brand model : String)
    (idDraws digitDraws letterDraws : ℕ → ℕ) :
    VehicleRegistry × Except VehicleInfoMissingError Vehicle :=
  match self.find_model_info brand model with
  | none => (self, Except.error (VehicleInfoMissingError.mkDefault brand model))
  | some vehicle_model =>
      let vehicle_id := generate_vehicle_id idDraws 12
      let license_plate := generate_vehicle_license digitDraws letterDraws vehicle_id
      (self, Except.ok ⟨vehicle_id, license_plate, vehicle_model⟩)

/-- `VehicleRegistry.online_status`: OFFLINE when the flag is down, else
CONNECTION_ERROR on an empty dictionary, else ONLINE.  The first component
is the registry state after the call (the method body only reads `self`). -/
def VehicleRegistry.online_status (self : VehicleRegistry) :
    VehicleRegistry × RegistryStatus :=
  (self,
    if !self.online then RegistryStatus.OFFLINE
    else
      if self.vehicle_models.length = 0 then RegistryStatus.CONNECTION_ERROR
      else RegistryStatus.ONLINE)

/-- Running a sequence of `add_vehicle_model_info` calls in order. -/
def applyAdds (st : VehicleRegistry) (infos : List VehicleModelInfo) : VehicleRegistry :=
  infos.foldl VehicleRegistry.add_vehicle_model_info st

/-- Sample model from `main()`: Tesla Model 3, 50000, defaults. -/
def sampleTesla : VehicleModelInfo :=
  VehicleModelInfo.mkDefault 2024 ("Tesla") ("Model 3") 50000

/-- Sample model from `main()`: BMW 520e, 60000, PETROL. -/
def sampleBMW : VehicleModelInfo :=
  ⟨"BMW", "520e", 60000, FuelType.PETROL, 2024⟩

/-! Helper lemmas about the dictionary operations and the random helpers. -/

lemma dictGet_insert_self (key : ModelKey) (val : VehicleModelInfo)
    (d : List (ModelKey × VehicleModelInfo)) :
    dictGet key (dictInsert key val d) = some val := by
  induction d with
  | nil => simp [dictInsert, dictGet]
  | cons kv rest ih =>
      obtain ⟨k, v⟩ := kv
      by_cases hk : k = key
      · simp [dictInsert, dictGet, hk]
      · simp [dictInsert, dictGet, hk, ih]

lemma dictGet_insert_ne (key key' : ModelKey) (val : VehicleModelInfo)
    (d : List (ModelKey × VehicleModelInfo)) (hne : key' ≠ key) :
    dictGet key (dictInsert key' val d) = dictGet key d := by
  induction d with
  | nil => simp [dictInsert, dictGet, hne]
  | cons kv rest ih =>
      obtain ⟨k, v⟩ := kv
      by_cases hk : k = key'
      · subst hk
        simp [dictInsert, dictGet, hne]
      · by_cases hk2 : k = key
        · simp [dictInsert, dictGet, hk, hk2, Ne.symm hne]
        · simp [dictInsert, dictGet, hk, hk2, ih]

lemma mem_map_fst_dictInsert (key : ModelKey) (val : VehicleModelInfo)
    (d : List (ModelKey × VehicleModelInfo)) (a : ModelKey) :
    a ∈ (dictInsert key val d).map Prod.fst ↔ a = key ∨ a ∈ d.map Prod.fst := by
  induction d with
  | nil => simp [dictInsert]
  | cons kv rest ih =>
      obtain ⟨k, v⟩ := kv
      by_cases hk : k = key
      · subst hk
        simp [dictInsert]
      · simp [dictInsert, hk, ih]
        tauto

lemma nodup_map_fst_dictInsert (key : ModelKey) (val : VehicleModelInfo)
    (d : List (ModelKey × VehicleModelInfo)) (h : (d.map Prod.fst).Nodup) :
    ((dictInsert key val d).map Prod.fst).Nodup := by
  induction d with
  | nil => simp [dictInsert]
  | cons kv rest ih =>
      obtain ⟨k, v⟩ := kv
      simp only [List.map_cons, List.nodup_cons] at h
      by_cases hk : k = key
      · subst hk
        simpa [dictInsert] using h
      · simp only [dictInsert, hk, if_false, List.map_cons, List.nodup_cons,
          mem_map_fst_dictInsert]
        exact ⟨by tauto, ih h.2⟩

lemma randChoice_mem (alphabet : List Char) (hlen : 0 < alphabet.length) (draw : ℕ) :
    randChoice alphabet draw ∈ alphabet := by
  unfold randChoice
  have hlt : draw % alphabet.length < alphabet.length := Nat.mod_lt _ hlen
  rw [List.getD_eq_getElem _ _ hlt]
  exact List.getElem_mem hlt

lemma randChoices_length (alphabet : List Char) (draws : ℕ → ℕ) (k : ℕ) :
    (randChoices alphabet draws k).length = k := by
  simp [randChoices]

lemma randChoices_two (alphabet : List Char) (draws : ℕ → ℕ) :
    randChoices alphabet draws 2 =
      [randChoice alphabet (draws 0), randChoice alphabet (draws 1)] := by
  simp [randChoices, List.range_succ]

lemma find_add_self (st : VehicleRegistry) (info : VehicleModelInfo) :
    (st.add_vehicle_model_info info).find_model_info info.brand info.model = some info :=
  dictGet_insert_self _ _ _

lemma find_add_ne (st : VehicleRegistry) (info : VehicleModelInfo) (brand model : String)
    (h : (brand, model) ≠ (info.brand, info.model)) :
    (st.add_vehicle_model_info info).find_model_info brand model =
      st.find_model_info brand model :=
  dictGet_insert_ne _ _ _ _ (Ne.symm h)

lemma applyAdds_cons (st : VehicleRegistry) (i : VehicleModelInfo)
    (rest : List VehicleModelInfo) :
    applyAdds st (i :: rest) = applyAdds (st.add_vehicle_model_info i) rest := rfl

lemma applyAdds_append (st : VehicleRegistry) (xs ys : List VehicleModelInfo) :
    applyAdds st (xs ++ ys) = applyAdds (applyAdds st xs) ys := by
  simp [applyAdds, List.foldl_append]

lemma find_applyAdds_frame (infos : List VehicleModelInfo) (st : VehicleRegistry)
    (brand model : String)
    (h : ∀ i ∈ infos, (i.brand, i.model) ≠ (brand, model)) :
    (applyAdds st infos).find_model_info brand model = st.find_model_info brand model := by
  induction infos generalizing st with
  | nil => rfl
  | cons i rest ih =>
      rw [applyAdds_cons,
        ih _ fun j hj => h j (List.mem_cons_of_mem _ hj),
        find_add_ne _ _ _ _ (Ne.symm (h i (List.mem_cons_self _ _)))]

/-- A second sample model used to exercise overwriting: same key as
`sampleTesla`, different price and year. -/
def sampleTeslaV2 : VehicleModelInfo :=
  ⟨"Tesla", "Model 3", 52000, FuelType.ELECTRIC, 2025⟩

/-! The claim theorems. -/

/-- Claim C1: for every (brand, model) pair present in the registry's model
mapping, `register_vehicle` returns a Vehicle whose `info` equals the stored
VehicleModelInfo, whose `vehicle_id` is a string of exactly 12
uppercase-alphabetic characters, and whose `license_plate` has the form
XX-DD-YY where XX are the first two characters of the vehicle id, DD are two
digits and YY are two uppercase letters. -/
theorem register_vehicle_success_spec (st : VehicleRegistry) (brand model : String)
    (info : VehicleModelInfo) (idDraws digitDraws letterDraws : ℕ → ℕ)
    (hfound : st.find_model_info brand model = some info) :
    ∃ v : Vehicle,
      (st.register_vehicle brand model idDraws digitDraws letterDraws).2 = Except.ok v
      ∧ v.info = info
      ∧ v.vehicle_id.length = 12
      ∧ (∀ c ∈ v.vehicle_id.toList, c ∈ ascii_uppercase)
      ∧ (∃ d₀ d₁ l₀ l₁ : Char,
          d₀ ∈ string_digits ∧ d₁ ∈ string_digits
          ∧ l₀ ∈ ascii_uppercase ∧ l₁ ∈ ascii_uppercase
          ∧ v.license_plate.toList =
              v.vehicle_id.toList.take 2 ++ ['-', d₀, d₁, '-', l₀, l₁]) := by
  refine ⟨⟨generate_vehicle_id idDraws 12,
      generate_vehicle_license digitDraws letterDraws (generate_vehicle_id idDraws 12),
      info⟩, ?_, rfl, ?_, ?_, ?_⟩
  · simp [VehicleRegistry.register_vehicle, hfound]
  · simp [generate_vehicle_id, String.length, randChoices_length]
  · intro c hc
    simp only [generate_vehicle_id, String.toList, randChoices, List.map_map,
      List.mem_map] at hc
    obtain ⟨i, _, hci⟩ := hc
    rw [← hci]
    exact randChoice_mem _ (by decide) _
  · refine ⟨randChoice string_digits (digitDraws 0), randChoice string_digits (digitDraws 1),
      randChoice ascii_uppercase (letterDraws 0), randChoice ascii_uppercase (letterDraws 1),
      randChoice_mem _ (by decide) _, randChoice_mem _ (by decide) _,
      randChoice_mem _ (by decide) _, randChoice_mem _ (by decide) _, ?_⟩
    simp [generate_vehicle_license, randChoices_two, String.toList]

/-- Claim C1 witness: a concrete successful registration. -/
theorem register_vehicle_success_spec_witness :
    ∃ v : Vehicle,
      ((VehicleRegistry.init.add_vehicle_model_info sampleTesla).register_vehicle
          ("Tesla") ("Model 3") (fun _ => 0) (fun _ => 0) (fun _ => 0)).2 = Except.ok v
      ∧ v.info = sampleTesla
      ∧ v.vehicle_id.length = 12
      ∧ (∀ c ∈ v.vehicle_id.toList, c ∈ ascii_uppercase)
      ∧ (∃ d₀ d₁ l₀ l₁ : Char,
          d₀ ∈ string_digits ∧ d₁ ∈ string_digits
          ∧ l₀ ∈ ascii_uppercase ∧ l₁ ∈ ascii_uppercase
          ∧ v.license_plate.toList =
              v.vehicle_id.toList.take 2 ++ ['-', d₀, d₁, '-', l₀, l₁]) :=
  register_vehicle_success_spec _ ("Tesla") ("Model 3") sampleTesla _ _ _ (by decide)

/-- Claim C2: for every (brand, model) pair not present in the registry's
model mapping, `register_vehicle` always fails with the missing-vehicle-
information error, and that error carries the offending brand and model
together with a human-readable message. -/
theorem register_vehicle_missing_spec (st : VehicleRegistry) (brand model : String)
    (idDraws digitDraws letterDraws : ℕ → ℕ)
    (hmiss : st.find_model_info brand model = none) :
    ∃ e : VehicleInfoMissingError,
      (st.register_vehicle brand model idDraws digitDraws letterDraws).2 = Except.error e
      ∧ e.brand = brand ∧ e.model = model
      ∧ e.message = "Vehicle information is missing." := by
  refine ⟨VehicleInfoMissingError.mkDefault brand model, ?_, rfl, rfl, rfl⟩
  simp [VehicleRegistry.register_vehicle, hmiss]

/-- Claim C2 witness: registering an unknown pair on the empty registry. -/
theorem register_vehicle_missing_spec_witness :
    ∃ e : VehicleInfoMissingError,
      (VehicleRegistry.init.register_vehicle ("Ford") ("Focus")
          (fun _ => 0) (fun _ => 0) (fun _ => 0)).2 = Except.error e
      ∧ e.brand = "Ford" ∧ e.model = "Focus"
      ∧ e.message = "Vehicle information is missing." :=
  register_vehicle_missing_spec VehicleRegistry.init ("Ford") ("Focus") _ _ _ rfl

/-- Claim C3: `online_status` returns OFFLINE when the online flag is false
regardless of the mapping, CONNECTION_ERROR when the flag is true and the
mapping is empty, ONLINE when the flag is true and the mapping is non-empty,
and it never modifies the registry state. -/
theorem online_status_spec (st : VehicleRegistry) :
    st.online_status.1 = st
    ∧ (st.online = false → st.online_status.2 = RegistryStatus.OFFLINE)
    ∧ (st.online = true → st.vehicle_models = [] →
        st.online_status.2 = RegistryStatus.CONNECTION_ERROR)
    ∧ (st.online = true → st.vehicle_models ≠ [] →
        st.online_status.2 = RegistryStatus.ONLINE) := by
  obtain ⟨models, online⟩ := st
  refine ⟨rfl, ?_, ?_, ?_⟩
  · rintro rfl
    rfl
  · rintro rfl rfl
    rfl
  · rintro rfl hne
    simp [VehicleRegistry.online_status, List.length_eq_zero, hne]

/-- Claim C3 witness: the three statuses on concrete registry states. -/
theorem online_status_spec_witness :
    (VehicleRegistry.mk [] false).online_status.2 = RegistryStatus.OFFLINE
    ∧ VehicleRegistry.init.online_status.2 = RegistryStatus.CONNECTION_ERROR
    ∧ (VehicleRegistry.init.add_vehicle_model_info sampleTesla).online_status.2 =
        RegistryStatus.ONLINE :=
  ⟨(online_status_spec _).2.1 rfl,
   (online_status_spec _).2.2.1 rfl rfl,
   (online_status_spec _).2.2.2 rfl (by decide)⟩

/-- Claim C4: every VehicleModelInfo inserted by `add_vehicle_model_info` and
not overwritten since is returned exactly by `find_model_info`; a pair never
inserted yields the absent-value marker `none`, with no error. -/
theorem find_model_info_spec (infos : List VehicleModelInfo) :
    (∀ (info : VehicleModelInfo) (pre post : List VehicleModelInfo),
        infos = pre ++ info :: post →
        (∀ j ∈ post, (j.brand, j.model) ≠ (info.brand, info.model)) →
        (applyAdds VehicleRegistry.init infos).find_model_info info.brand info.model
          = some info)
    ∧ (∀ brand model : String,
        (∀ i ∈ infos, (i.brand, i.model) ≠ (brand, model)) →
        (applyAdds VehicleRegistry.init infos).find_model_info brand model = none) := by
  constructor
  · intro info pre post heq hpost
    subst heq
    rw [applyAdds_append, applyAdds_cons, find_applyAdds_frame post _ _ _ hpost]
    exact find_add_self _ info
  · intro brand model h
    rw [find_applyAdds_frame infos _ _ _ h]
    rfl

/-- Claim C4 witness: lookups on a registry with two inserted models. -/
theorem find_model_info_spec_witness :
    (applyAdds VehicleRegistry.init [sampleTesla, sampleBMW]).find_model_info
        ("Tesla") ("Model 3") = some sampleTesla
    ∧ (applyAdds VehicleRegistry.init [sampleTesla, sampleBMW]).find_model_info
        ("Ford") ("Focus") = none :=
  ⟨(find_model_info_spec [sampleTesla, sampleBMW]).1 sampleTesla [] [sampleBMW]
      rfl (by decide),
   (find_model_info_spec [sampleTesla, sampleBMW]).2 ("Ford") ("Focus") (by decide)⟩

/-- Claim C5: tax is 2% of the catalogue price for ELECTRIC and 5% for
PETROL; in particular an ELECTRIC model priced 50000 owes exactly 1000 and
a PETROL model priced 60000 owes exactly 3000. -/
theorem tax_spec :
    (∀ (b m : String) (p y : ℤ),
        (VehicleModelInfo.mk b m p FuelType.ELECTRIC y).tax = 2 / 100 * (p : ℚ))
    ∧ (∀ (b m : String) (p y : ℤ),
        (VehicleModelInfo.mk b m p FuelType.PETROL y).tax = 5 / 100 * (p : ℚ))
    ∧ sampleTesla.tax = 1000
    ∧ sampleBMW.tax = 3000 := by
  refine ⟨fun b m p y => rfl, fun b m p y => rfl, ?_, ?_⟩
  · norm_num [sampleTesla, VehicleModelInfo.mkDefault, VehicleModelInfo.tax, taxes]
  · norm_num [sampleBMW, VehicleModelInfo.tax, taxes]

/-- Claim C6: `add_vehicle_model_info` inserts or overwrites the entry keyed
by (brand, model) of the given info — keys stay unique and the last write
wins — and changes nothing else: the online flag and the entries under all
other keys are unchanged. -/
theorem add_vehicle_model_info_spec (st : VehicleRegistry)
    (info info' : VehicleModelInfo) :
    ((st.add_vehicle_model_info info).find_model_info info.brand info.model = some info)
    ∧ (st.add_vehicle_model_info info).online = st.online
    ∧ (∀ brand model : String, (brand, model) ≠ (info.brand, info.model) →
        (st.add_vehicle_model_info info).find_model_info brand model =
          st.find_model_info brand model)
    ∧ ((info'.brand, info'.model) = (info.brand, info.model) →
        ((st.add_vehicle_model_info info').add_vehicle_model_info info).find_model_info
          info.brand info.model = some info)
    ∧ ((st.vehicle_models.map Prod.fst).Nodup →
        ((st.add_vehicle_model_info info).vehicle_models.map Prod.fst).Nodup) := by
  refine ⟨find_add_self st info, rfl, ?_, ?_, ?_⟩
  · intro brand model h
    exact find_add_ne st info brand model h
  · intro _
    exact find_add_self _ info
  · exact nodup_map_fst_dictInsert _ _ _

/-- Claim C6 witness: concrete insertion, frame, overwrite and key
uniqueness. -/
theorem add_vehicle_model_info_spec_witness :
    ((VehicleRegistry.init.add_vehicle_model_info sampleTesla).find_model_info
        ("Tesla") ("Model 3") = some sampleTesla)
    ∧ ((VehicleRegistry.init.add_vehicle_model_info sampleTesla).find_model_info
        ("BMW") ("520e") = VehicleRegistry.init.find_model_info ("BMW") ("520e"))
    ∧ (((VehicleRegistry.init.add_vehicle_model_info sampleTesla).add_vehicle_model_info
          sampleTeslaV2).find_model_info ("Tesla") ("Model 3") = some sampleTeslaV2)
    ∧ (((VehicleRegistry.init.add_vehicle_model_info sampleTesla).vehicle_models.map
          Prod.fst).Nodup) :=
  ⟨(add_vehicle_model_info_spec VehicleRegistry.init sampleTesla sampleTesla).1,
   (add_vehicle_model_info_spec VehicleRegistry.init sampleTesla sampleTesla).2.2.1
      ("BMW") ("520e") (by decide),
   (add_vehicle_model_info_spec VehicleRegistry.init sampleTeslaV2 sampleTesla).2.2.2.1
      (by decide),
   (add_vehicle_model_info_spec VehicleRegistry.init sampleTesla sampleTesla).2.2.2.2
      (by decide)⟩

/-- Claim C7: every Vehicle produced by `register_vehicle` references a
VehicleModelInfo present in the mapping at registration time, and when the
pair is not a key of the mapping the call fails. -/
theorem register_vehicle_requires_known_model (st : VehicleRegistry)
    (brand model : String) (idDraws digitDraws letterDraws : ℕ → ℕ) :
    (∀ v : Vehicle,
        (st.register_vehicle brand model idDraws digitDraws letterDraws).2 = Except.ok v →
        st.find_model_info brand model = some v.info)
    ∧ (st.find_model_info brand model = none →
        ∃ e : VehicleInfoMissingError,
          (st.register_vehicle brand model idDraws digitDraws letterDraws).2 =
            Except.error e) := by
  rcases hfind : st.find_model_info brand model with _ | info
  · constructor
    · intro v hv
      simp [VehicleRegistry.register_vehicle, hfind] at hv
    · intro _
      exact ⟨VehicleInfoMissingError.mkDefault brand model,
        by simp [VehicleRegistry.register_vehicle, hfind]⟩
  · constructor
    · intro v hv
      simp only [VehicleRegistry.register_vehicle, hfind, Except.ok.injEq] at hv
      rw [← hv]
    · intro h
      exact Option.noConfusion h

/-- Claim C7 witness: a concrete success references the stored info, and a
concrete unknown pair fails. -/
theorem register_vehicle_requires_known_model_witness :
    ((VehicleRegistry.init.add_vehicle_model_info sampleTesla).find_model_info
        ("Tesla") ("Model 3") =
      some (Vehicle.mk ("AAAAAAAAAAAA") ("AA-00-AA") sampleTesla).info)
    ∧ (∃ e : VehicleInfoMissingError,
        (VehicleRegistry.init.register_vehicle ("Ford") ("Focus")
            (fun _ => 0) (fun _ => 0) (fun _ => 0)).2 = Except.error e) :=
  ⟨(register_vehicle_requires_known_model
      (VehicleRegistry.init.add_vehicle_model_info sampleTesla) ("Tesla") ("Model 3")
      (fun _ => 0) (fun _ => 0) (fun _ => 0)).1
      (Vehicle.mk ("AAAAAAAAAAAA") ("AA-00-AA") sampleTesla) rfl,
   (register_vehicle_requires_known_model VehicleRegistry.init ("Ford") ("Focus")
      (fun _ => 0) (fun _ => 0) (fun _ => 0)).2 rfl⟩

/-- Claim C8: `register_vehicle` never modifies the registry state, on the
success path and on the error path alike. -/
theorem register_vehicle_frame (st : VehicleRegistry) (brand model : String)
    (idDraws digitDraws letterDraws : ℕ → ℕ) :
    (st.register_vehicle brand model idDraws digitDraws letterDraws).1 = st := by
  unfold VehicleRegistry.register_vehicle
  cases st.find_model_info brand model <;> rfl

/-- Claim C9: a freshly constructed registry is online with an empty mapping,
so its status is CONNECTION_ERROR, never OFFLINE. -/
theorem init_registry_status_spec :
    VehicleRegistry.init.online = true
    ∧ VehicleRegistry.init.vehicle_models = []
    ∧ VehicleRegistry.init.online_status.2 = RegistryStatus.CONNECTION_ERROR
    ∧ VehicleRegistry.init.online_status.2 ≠ RegistryStatus.OFFLINE :=
  ⟨rfl, rfl, rfl, by decide⟩

/-- Claim C10: a VehicleModelInfo built from brand, model and catalogue price
alone defaults `fuel_type` to ELECTRIC (so its tax uses the 2% rate) and
`production_year` to the calendar year captured when the class was defined,
which the embedding passes in as `classDefinitionYear`. -/
theorem vehicle_model_info_defaults_spec (y : ℤ) (b m : String) (p : ℤ) :
    (VehicleModelInfo.mkDefault y b m p).fuel_type = FuelType.ELECTRIC
    ∧ (VehicleModelInfo.mkDefault y b m p).production_year = y
    ∧ (VehicleModelInfo.mkDefault y b m p).tax = 2 / 100 * (p : ℚ) :=
  ⟨rfl, rfl, rfl⟩

end VehicleReg
